import Mathlib

/-!
Verification of the Grab-and-Go popup extraction pipeline (popup.js).

The definitions below are a shallow embedding of the scraping and delivery
logic of popup.js.  The DOM is modelled through the query interface the
code actually uses: a document maps each selector string the code passes
to querySelectorAll / querySelector to the list of matching elements in
document order, and an element carries exactly the data the code reads
from it (textContent, class list, attributes, descendant text nodes,
computed visibility, sibling texts).  JavaScript string primitives
(trim, toUpperCase, includes, parseInt, isNaN, the two regular
expressions) are modelled as executable functions over the character
list of the string.
-/

namespace GrabAndGo

/-! ## JavaScript string primitives -/

/-- ASCII whitespace, for the trim model. -/
def isWs (c : Char) : Bool := c == ' ' || c == '\t' || c == '\n' || c == '\r'

/-- Model of JavaScript String.prototype.trim. -/
def jsTrim (s : String) : String :=
  ⟨((s.data.dropWhile isWs).reverse.dropWhile isWs).reverse⟩

/-- Model of JavaScript String.prototype.toUpperCase (ASCII). -/
def jsToUpper (s : String) : String := ⟨s.data.map Char.toUpper⟩

/-- Model of JavaScript String.prototype.toLowerCase (ASCII). -/
def jsToLower (s : String) : String := ⟨s.data.map Char.toLower⟩

/-- pat occurs at the head of the second list. -/
def headMatches : List Char → List Char → Bool
  | [], _ => true
  | _ :: _, [] => false
  | a :: as, b :: bs => a == b && headMatches as bs

/-- pat occurs somewhere in the first list. -/
def containsSub (s pat : List Char) : Bool :=
  match s with
  | [] => pat == []
  | _ :: rest => headMatches pat s || containsSub rest pat

/-- Model of JavaScript String.prototype.includes. -/
def includesStr (s pat : String) : Bool := containsSub s.data pat.data

/-- A decimal digit, the regex class backslash-d over ASCII. -/
def isDig (c : Char) : Bool := 48 ≤ c.toNat && c.toNat ≤ 57

/-- A hexadecimal digit. -/
def isHexDig (c : Char) : Bool :=
  isDig c || (97 ≤ c.toNat && c.toNat ≤ 102) || (65 ≤ c.toNat && c.toNat ≤ 70)

/-- After the optional sign, parseInt succeeds iff the text starts with a
digit (or a 0x/0X prefix followed by a hex digit). -/
def parseIntBody : List Char → Bool
  | '0' :: 'x' :: rest => match rest with | c :: _ => isHexDig c | [] => false
  | '0' :: 'X' :: rest => match rest with | c :: _ => isHexDig c | [] => false
  | c :: _ => isDig c
  | [] => false

/-- Model of not isNaN(parseInt(t)) for an already trimmed string t. -/
def jsParseIntOk (t : String) : Bool :=
  match t.data with
  | '+' :: cs => parseIntBody cs
  | '-' :: cs => parseIntBody cs
  | cs => parseIntBody cs

/-- The digit block of a numeric-literal exponent, with optional sign. -/
def expDigits : List Char → Bool
  | '+' :: r => r ≠ [] && r.all isDig
  | '-' :: r => r ≠ [] && r.all isDig
  | r => r ≠ [] && r.all isDig

/-- An optional exponent suffix of a numeric literal. -/
def expTail : List Char → Bool
  | [] => true
  | 'e' :: rest => expDigits rest
  | 'E' :: rest => expDigits rest
  | _ => false

/-- A decimal mantissa with optional fraction and exponent. -/
def mantissaTail (cs : List Char) : Bool :=
  let ds := cs.takeWhile isDig
  let rest := cs.dropWhile isDig
  match rest with
  | '.' :: rest2 =>
      let ds2 := rest2.takeWhile isDig
      let rest3 := rest2.dropWhile isDig
      (ds ≠ [] || ds2 ≠ []) && expTail rest3
  | _ => ds ≠ [] && expTail rest

/-- An unsigned numeric-literal body: decimal, hex, binary, octal or Infinity. -/
def jsNumericBody (cs : List Char) : Bool :=
  match cs with
  | '0' :: 'x' :: r => r ≠ [] && r.all isHexDig
  | '0' :: 'X' :: r => r ≠ [] && r.all isHexDig
  | '0' :: 'b' :: r => r ≠ [] && r.all (fun c => c == '0' || c == '1')
  | '0' :: 'B' :: r => r ≠ [] && r.all (fun c => c == '0' || c == '1')
  | '0' :: 'o' :: r => r ≠ [] && r.all (fun c => 48 ≤ c.toNat && c.toNat ≤ 55)
  | '0' :: 'O' :: r => r ≠ [] && r.all (fun c => 48 ≤ c.toNat && c.toNat ≤ 55)
  | _ => mantissaTail cs || cs = "Infinity".data

/-- Model of not isNaN(t), i.e. Number(t) is a number, for a trimmed t.
The source uses isNaN(text) to decide that a text is NOT a hub name. -/
def jsIsNumericString (t : String) : Bool :=
  match t.data with
  | [] => true
  | '+' :: rest => mantissaTail rest || rest = "Infinity".data
  | '-' :: rest => mantissaTail rest || rest = "Infinity".data
  | cs => jsNumericBody cs

/-! ## The two regular expressions of popup.js

The security-rating pattern is minus-sign (optional), digit, dot, digit;
the connection pattern is the letter C followed by a digit from 1 to 6.
A JavaScript match returns the leftmost occurrence. -/

/-- An occurrence of the security pattern at the head of the list. -/
def secMatchAt (cs : List Char) : Option String :=
  match cs with
  | c0 :: c1 :: c2 :: c3 :: _ =>
      if c0 == '-' && isDig c1 && c2 == '.' && isDig c3 then some ⟨[c0, c1, c2, c3]⟩
      else if isDig c0 && c1 == '.' && isDig c2 then some ⟨[c0, c1, c2]⟩
      else none
  | [c0, c1, c2] =>
      if isDig c0 && c1 == '.' && isDig c2 then some ⟨[c0, c1, c2]⟩
      else none
  | _ => none

/-- Leftmost occurrence of the security pattern: text.match of the
security regex in popup.js. -/
def firstSecMatch : List Char → Option String
  | [] => none
  | c :: rest =>
    match secMatchAt (c :: rest) with
    | some s => some s
    | none => firstSecMatch rest

/-- An occurrence of the connection pattern at the head of the list. -/
def connMatchAt (cs : List Char) : Option String :=
  match cs with
  | c0 :: c1 :: _ =>
      if c0 == 'C' && 49 ≤ c1.toNat && c1.toNat ≤ 54 then some ⟨[c0, c1]⟩ else none
  | _ => none

/-- Leftmost occurrence of the connection pattern: text.match of the
connection regex in popup.js. -/
def firstConnMatch : List Char → Option String
  | [] => none
  | c :: rest =>
    match connMatchAt (c :: rest) with
    | some s => some s
    | none => firstConnMatch rest

/-! ## The DOM model -/

/-- A descendant node as seen by extractAllDestinationsFromContainer:
its own textContent, the textContents of its previous and next element
siblings, and the textContents of the children of its parent element. -/
structure DescNode where
  text : String
  prevSibText : Option String := none
  nextSibText : Option String := none
  parentChildTexts : Option (List String) := none
deriving DecidableEq

/-- A DOM element, carrying exactly the data popup.js reads from it. -/
structure Elem where
  /-- element.textContent. -/
  textContent : String := ""
  /-- element.getAttribute with the aria-selected name. -/
  ariaSelected : Option String := none
  /-- element.classList. -/
  classList : List String := []
  /-- element.hasAttribute with the data-selected name. -/
  hasDataSelected : Bool := false
  /-- textContents of the matches of the text-element query
  (p, span and Typography-classed elements) inside this element. -/
  textEls : List String := []
  /-- display of getComputedStyle. -/
  styleDisplay : String := "block"
  /-- visibility of getComputedStyle. -/
  styleVisibility : String := "visible"
  /-- matches of querySelectorAll with the universal selector. -/
  descendants : List DescNode := []
deriving DecidableEq

/-- The read interface of the host document: querySelectorAll and
querySelector keyed by the selector strings popup.js passes. -/
structure Document where
  queryAll : String → List Elem
  queryOne : String → Option Elem

/-- Helper to build concrete documents from association lists. -/
def docOfQueries (qa : List (String × List Elem)) (qo : List (String × Elem)) : Document :=
  { queryAll := fun sel => ((qa.find? (fun p => p.1 == sel)).map Prod.snd).getD [],
    queryOne := fun sel => (qo.find? (fun p => p.1 == sel)).map Prod.snd }

/-! ## Name Locator: extractSystemName -/

/-- The ordered header selector patterns of extractSystemName. -/
def headerSelectors : List String :=
  ["main header h6", "header h6", ".MuiPaper-root header h6", "[class*=\"header\"] h6"]

/-- extractSystemName of popup.js: ordered header selectors first, then a
scan of all h6 elements excluding known UI labels. -/
def extractSystemName (doc : Document) : Option String :=
  let fromSelectors := headerSelectors.findSome? (fun selector =>
    (doc.queryAll selector).findSome? (fun element =>
      let text := jsTrim element.textContent
      if text ≠ "" && text.length > 0 && text.length < 30 && !(text.data.contains '\n')
      then some text else none))
  match fromSelectors with
  | some t => some t
  | none =>
    (doc.queryAll "h6").findSome? (fun h6 =>
      let text := jsTrim h6.textContent
      if text ≠ "" && text.length > 0 && text.length < 30 && !(text.data.contains '\n') then
        if !(includesStr text "SHORTEST") && !(includesStr text "SECURE") &&
           !(includesStr text "Settings") && !(includesStr text "Route")
        then some text else none
      else none)

/-! ## Classifier Extractor: extractSecurityAndConnection -/

/-- The map-node selector of strategy 1. -/
def nodeSelector : String := "[class*=\"node\"], [class*=\"system\"]"

/-- The system-type selector of strategy 2. -/
def systemTypeSelector : String := ".system-type, [class*=\"system-type\"]"

/-- The header-area selector of strategy 3. -/
def headerAreaSelector : String := "main header, header"

/-- Strategy 1 of extractSecurityAndConnection: the first map node whose
textContent includes the system name; both regexes are run on it. -/
def nodeStrategy (doc : Document) (systemName : String) : Option String × Option String :=
  match (doc.queryAll nodeSelector).find? (fun node =>
      includesStr node.textContent systemName) with
  | some node => (firstSecMatch node.textContent.data, firstConnMatch node.textContent.data)
  | none => (none, none)

/-- Strategy 2 of extractSecurityAndConnection: every system-type element
is classified as a connection code or else a security rating; later
elements overwrite earlier ones, exactly as the source loop assigns. -/
def systemTypeScan (doc : Document) (p : Option String × Option String) :
    Option String × Option String :=
  (doc.queryAll systemTypeSelector).foldl (fun acc element =>
    let text := jsTrim element.textContent
    match firstConnMatch text.data with
    | some c => (acc.1, some c)
    | none =>
      match firstSecMatch text.data with
      | some s => (some s, acc.2)
      | none => acc) p

/-- Strategy 3 of extractSecurityAndConnection: the header area text blob,
filling only the fields still unset. -/
def headerFill (doc : Document) (p : Option String × Option String) :
    Option String × Option String :=
  match doc.queryOne headerAreaSelector with
  | some headerArea =>
      let headerText := headerArea.textContent
      let sec := match p.1 with
        | some s => some s
        | none => firstSecMatch headerText.data
      let conn := match p.2 with
        | some c => some c
        | none => firstConnMatch headerText.data
      (sec, conn)
  | none => p

/-- The Classification record returned by extractSecurityAndConnection. -/
structure Classification where
  securityRating : String
  connectionType : Option String
deriving DecidableEq

/-- The strategy-2 block with its source guard: it runs only when neither
field is set yet. -/
def systemTypeGate (doc : Document) (p : Option String × Option String) :
    Option String × Option String :=
  if p.1.isNone && p.2.isNone then systemTypeScan doc p else p

/-- The strategy-3 block with its source guard: it runs when some field
is still unset. -/
def headerFillGate (doc : Document) (p : Option String × Option String) :
    Option String × Option String :=
  if p.1.isNone || p.2.isNone then headerFill doc p else p

/-- The pair of optional fields after the three strategy blocks of
extractSecurityAndConnection have run in source order. -/
def classifierPair (doc : Document) (systemName : String) : Option String × Option String :=
  headerFillGate doc (systemTypeGate doc (nodeStrategy doc systemName))

/-- extractSecurityAndConnection of popup.js: the three guarded strategy
blocks in source order, then an unset security rating defaults to the
Unknown sentinel while an unset connection type is returned as absent. -/
def extractSecurityAndConnection (doc : Document) (systemName : String) : Classification :=
  let p := classifierPair doc systemName
  { securityRating := p.1.getD "Unknown", connectionType := p.2 }

/-! ## Mode Detector: detectActiveTab -/

/-- The tab-button selector of detectActiveTab. -/
def tabSelector : String := "button, [role=\"tab\"]"

/-- The four is-active indicators tested by detectActiveTab. -/
def isActiveTabButton (button : Elem) : Bool :=
  button.ariaSelected == some "true" ||
  button.classList.contains "Mui-selected" ||
  button.classList.contains "active" ||
  button.hasDataSelected

/-- The per-button test of detectActiveTab: the uppercased trimmed text
must be one of the two mode labels and the button must test active. -/
def tabProbe (button : Elem) : Option String :=
  let text := jsToUpper (jsTrim button.textContent)
  if (text == "SHORTEST" || text == "SECURE") && isActiveTabButton button
  then some text else none

/-- detectActiveTab of popup.js: first button whose uppercased trimmed
text is one of the two mode labels and which tests active; the default
is the SHORTEST label. -/
def detectActiveTab (doc : Document) : String :=
  match (doc.queryAll tabSelector).findSome? tabProbe with
  | some t => t
  | none => "SHORTEST"

/-! ## Destination Extractor -/

/-- A destination entry: hub name and jump count, both strings. -/
structure Destination where
  name : String
  jumps : String
deriving DecidableEq

/-- extractDestinationFromElement of popup.js: scan the text elements of
one candidate; a short parsable text is the jump count, a short
non-numeric text outside the denylist is the hub name; the last seen
value of each kind wins; succeed only when both were found. -/
def extractDestinationFromElement (element : Elem) : Option Destination :=
  let p := element.textEls.foldl (fun (acc : Option String × Option String) t0 =>
      let text := jsTrim t0
      if jsParseIntOk text && text.length ≤ 3 then (acc.1, some text)
      else if text ≠ "" && text.length > 0 && text.length < 30 && !(jsIsNumericString text) then
        if !(includesStr text "from") && !(includesStr text "jumps") &&
           !(includesStr (jsToLower text) "route")
        then (some text, acc.2) else acc
      else acc) (none, none)
  match p with
  | (some hubName, some jumps) => some { name := hubName, jumps := jumps }
  | _ => none

/-- The fixed list of well-known hub names of
extractAllDestinationsFromContainer. -/
def commonHubs : List String := ["Jita", "Hek", "Amarr", "Rens", "Dodixie", "Stacmon"]

/-- The jump-count lookup around one matched descendant: the previous
sibling, then the next sibling (both without a length bound), then the
first parent child that parses with the length bound. -/
def jumpsNearby (element : DescNode) : Option String :=
  let jumps : Option String :=
    match element.prevSibText with
    | some st => let s := jsTrim st; if jsParseIntOk s then some s else none
    | none => none
  let jumps : Option String :=
    match jumps with
    | some j => some j
    | none =>
      match element.nextSibText with
      | some st => let s := jsTrim st; if jsParseIntOk s then some s else none
      | none => none
  match jumps with
  | some j => some j
  | none =>
    match element.parentChildTexts with
    | some children => children.findSome? (fun ct =>
        let s := jsTrim ct
        if jsParseIntOk s && s.length ≤ 3 then some s else none)
    | none => none

/-- The body of the hub loop of extractAllDestinationsFromContainer: when
the trimmed descendant text equals the hub name and a jump count is found
nearby, the destination is recorded unless one with that name exists. -/
def addHubIfFound (element : DescNode) (destinations : List Destination) (hub : String) :
    List Destination :=
  if jsTrim element.text == hub then
    match jumpsNearby element with
    | some j =>
        if destinations.all (fun d => d.name != hub)
        then destinations ++ [{ name := hub, jumps := j }]
        else destinations
    | none => destinations
  else destinations

/-- extractAllDestinationsFromContainer of popup.js: every descendant
whose trimmed text equals a known hub name; the jump count is looked up
in the previous sibling, then the next sibling, then among the parent
children (there with a length bound); a hit is recorded only when no
destination with that name is present yet. -/
def extractAllDestinationsFromContainer (container : Elem) : List Destination :=
  container.descendants.foldl (fun destinations element =>
    commonHubs.foldl (addHubIfFound element) destinations) []

/-- The container scan of extractAllDestinationsFromContainer over an
arbitrary descendant list and accumulator, for stating how the scan
grows: the same double loop, exposed on its inputs. -/
def containerScan (descendants : List DescNode) (destinations : List Destination) :
    List Destination :=
  descendants.foldl (fun destinations element =>
    commonHubs.foldl (addHubIfFound element) destinations) destinations

/-- The hub-summary selector of strategy 1. -/
def hubSummarySelector : String := ".route-hub-summary, [class*=\"route-hub-summary\"]"

/-- The accordion selector of strategy 2. -/
def accordionSelector : String := "[class*=\"MuiAccordion\"]"

/-- The panel selector of strategy 3. -/
def panelSelector : String := "[role=\"tabpanel\"], [class*=\"panel\"]"

/-- The computed-style visibility test of strategy 3. -/
def isVisible (panel : Elem) : Bool :=
  panel.styleDisplay != "none" && panel.styleVisibility != "hidden"

/-- The push of one per-element extraction result, as the strategy-1 and
strategy-2 loops of extractDestinations perform it. -/
def pushDestination (acc : List Destination) (element : Elem) : List Destination :=
  match extractDestinationFromElement element with
  | some destination => acc ++ [destination]
  | none => acc

/-- extractDestinations of popup.js: hub-summary elements first; the
accordion scan only when the list is still empty; the visible-panel scan
only when the list is still empty after that. -/
def extractDestinations (doc : Document) (activeTab : String) : List Destination :=
  let destinations : List Destination :=
    (doc.queryAll hubSummarySelector).foldl pushDestination []
  let destinations :=
    if destinations.length = 0 then
      (doc.queryAll accordionSelector).foldl pushDestination destinations
    else destinations
  let destinations :=
    if destinations.length = 0 then
      (doc.queryAll panelSelector).foldl (fun acc panel =>
        if isVisible panel then acc ++ extractAllDestinationsFromContainer panel else acc)
        destinations
    else destinations
  destinations

/-! ## Formatter: getSystemData -/

/-- The record returned by getSystemData. -/
structure ScrapeResult where
  success : Bool
  header : String
  destinations : String
  error : Option String := none
deriving DecidableEq

/-- Comma-space join, the join call of popup.js. -/
def joinCommaSpace : List String → String
  | [] => ""
  | [x] => x
  | x :: xs => x ++ ", " ++ joinCommaSpace xs

/-- getSystemData of popup.js: name first (short circuit on failure with
the fixed no-selection record), then classification, active tab and
destinations; an empty destination list yields the failure record whose
header carries no trailing comma; success yields the trailing-comma
header and the joined destination pairs. -/
def getSystemData (doc : Document) : ScrapeResult :=
  match extractSystemName doc with
  | none =>
      { success := false, error := some "No system selected.",
        header := "No system selected", destinations := "" }
  | some systemName =>
      let c := extractSecurityAndConnection doc systemName
      let activeTab := detectActiveTab doc
      let destinations := extractDestinations doc activeTab
      if destinations.length = 0 then
        { success := false,
          error := some "Could not extract destination data. Please ensure the tab is expanded.",
          header :=
            match c.connectionType with
            | some t => systemName ++ ", " ++ c.securityRating ++ ", " ++ t
            | none => systemName ++ ", " ++ c.securityRating,
          destinations := "" }
      else
        { success := true,
          header :=
            match c.connectionType with
            | some t => systemName ++ ", " ++ c.securityRating ++ ", " ++ t ++ ","
            | none => systemName ++ ", " ++ c.securityRating ++ ",",
          destinations := joinCommaSpace (destinations.map (fun d => d.name ++ " " ++ d.jumps)),
          error := none }

/-! ## Delivery shell: the Discord click handler state machine

The mutable state owned by one popup activation, as the click handler
and the completion continuation of sendToDiscord manipulate it. -/

/-- The popup state touched by the Discord button handler: the in-flight
guard, the two displayed text fields, the outbound calls started so far
and the alerts raised so far. -/
structure PopupState where
  isSendingToDiscord : Bool
  headerData : String
  numberData : String
  sentMessages : List String
  alerts : List String
deriving DecidableEq

/-- One synchronous run of the Discord button click handler: a no-op
while the guard is set; guard set, text assembled from the displayed
fields; empty or whitespace-only webhook URL alerts and releases the
guard without any outbound call; otherwise the outbound call starts. -/
def discordClick (s : PopupState) (webhookUrl : String) : PopupState :=
  if s.isSendingToDiscord then s
  else
    let s := { s with isSendingToDiscord := true }
    let numbers := s.numberData
    let header := s.headerData
    let fullText := if numbers ≠ "" then header ++ " " ++ numbers else header
    if webhookUrl == "" || jsTrim webhookUrl == "" then
      { s with alerts := s.alerts ++ ["Please enter a Discord Webhook URL first!"],
               isSendingToDiscord := false }
    else
      { s with sentMessages := s.sentMessages ++ [fullText] }

/-- Settlement of the sendToDiscord promise: the catch branch alerts on
failure, and the finally branch releases the guard in either case. -/
def discordSendFinished (s : PopupState) (ok : Bool) : PopupState :=
  let s :=
    if ok then s
    else { s with alerts := s.alerts ++ ["Failed to send to Discord. Check console for details."] }
  { s with isSendingToDiscord := false }

/-! ## Interpretation of matched security-rating strings -/

/-- The shape of every string the security regex model can return:
an optional minus sign, one digit, a dot, one digit. -/
def isSecToken (s : String) : Bool :=
  match s.data with
  | [c0, c1, c2, c3] => c0 == '-' && isDig c1 && c2 == '.' && isDig c3
  | [c0, c1, c2] => isDig c0 && c1 == '.' && isDig c2
  | _ => false

/-- The rational value denoted by a security-rating string of the
matched shape. -/
def secValue? (s : String) : Option ℚ :=
  match s.data with
  | [c0, c1, c2, c3] =>
      if c0 == '-' && isDig c1 && c2 == '.' && isDig c3 then
        some (-(((c1.toNat - 48 : ℕ) : ℚ) + ((c3.toNat - 48 : ℕ) : ℚ) / 10))
      else none
  | [c0, c1, c2] =>
      if isDig c0 && c1 == '.' && isDig c2 then
        some (((c0.toNat - 48 : ℕ) : ℚ) + ((c2.toNat - 48 : ℕ) : ℚ) / 10)
      else none
  | _ => none

/-- The security field of a partial classification is unset or holds a
string of the matched security shape. -/
def SecShaped (o : Option String) : Prop :=
  ∀ s, o = some s → isSecToken s = true

/-! ## Concrete documents for the witnesses and counterexamples -/

/-- A document with a selected system named Egmur, a map node carrying
rating 0.7 and connection C4, and no destination data anywhere. -/
def doc1 : Document :=
  docOfQueries
    [("main header h6", [{ textContent := "Egmur" }]),
     (nodeSelector, [{ textContent := "Egmur 0.7 C4" }])]
    []

/-- A document whose hub-summary list shows the Jita route twice, with
different jump counts. -/
def doc2 : Document :=
  docOfQueries
    [("main header h6", [{ textContent := "Egmur" }]),
     (nodeSelector, [{ textContent := "Egmur 0.7 C4" }]),
     (hubSummarySelector,
      [{ textContent := "Jita 14", textEls := ["Jita", "14"] },
       { textContent := "Jita 15", textEls := ["Jita", "15"] }])]
    []

/-- The empty document: every query returns nothing. -/
def docEmpty : Document := docOfQueries [] []

/-- A descendant showing Jita with jump count 14 in its previous sibling. -/
def descW14 : DescNode := { text := "Jita", prevSibText := some "14" }

/-- A descendant showing Jita again, with a different jump count 15. -/
def descW15 : DescNode := { text := "Jita", prevSibText := some "15" }

/-- A container whose descendants show Jita twice with different jump
counts. -/
def containerW : Elem := { textContent := "panel", descendants := [descW14, descW15] }

/-- A document whose selected node carries only a security rating while a
system-type element carries connection class C3. -/
def doc4w : Document :=
  docOfQueries
    [("main header h6", [{ textContent := "Egmur" }]),
     (nodeSelector, [{ textContent := "Egmur 0.7" }]),
     (systemTypeSelector, [{ textContent := "C3" }])]
    []

/-- doc4w with the system-type elements removed; the rest agrees. -/
def doc4w2 : Document :=
  docOfQueries
    [("main header h6", [{ textContent := "Egmur" }]),
     (nodeSelector, [{ textContent := "Egmur 0.7" }])]
    []

/-- The scenario-1 document: Egmur, 0.7, C4 and the five configured
destinations in the hub-summary list. -/
def doc5 : Document :=
  docOfQueries
    [("main header h6", [{ textContent := "Egmur" }]),
     (nodeSelector, [{ textContent := "Egmur 0.7 C4" }]),
     (hubSummarySelector,
      [{ textContent := "Jita 14", textEls := ["Jita", "14"] },
       { textContent := "Hek 16", textEls := ["Hek", "16"] },
       { textContent := "Amarr 5", textEls := ["Amarr", "5"] },
       { textContent := "Rens 16", textEls := ["Rens", "16"] },
       { textContent := "Dodixie 10", textEls := ["Dodixie", "10"] }])]
    []

/-- A document whose map node shows the out-of-range rating 9.9. -/
def doc7 : Document :=
  docOfQueries
    [("main header h6", [{ textContent := "Foo" }]),
     (nodeSelector, [{ textContent := "Foo 9.9" }])]
    []

/-- A document whose only button is an unrelated settings button, so no
qualifying mode element is marked active. -/
def doc8w : Document :=
  docOfQueries
    [(tabSelector, [{ textContent := "Settings" }])]
    []

/-- A popup state with a delivery in flight and a displayed result. -/
def popupS9 : PopupState :=
  { isSendingToDiscord := true, headerData := "Egmur, 0.7, C4,",
    numberData := "Jita 14", sentMessages := [], alerts := [] }

/-- An idle popup state with a displayed result. -/
def popupS10 : PopupState :=
  { isSendingToDiscord := false, headerData := "Egmur, 0.7, C4,",
    numberData := "Jita 14", sentMessages := [], alerts := [] }

/-! ## General helper lemmas -/

/-- The push loop of the first two destination strategies is the
filterMap of the per-element extraction, appended to the initial list. -/
theorem foldl_pushDestination_eq_filterMap (l : List Elem) (init : List Destination) :
    l.foldl pushDestination init = init ++ l.filterMap extractDestinationFromElement := by
  induction l generalizing init with
  | nil => simp
  | cons x xs ih =>
    rw [List.foldl_cons]
    cases hfx : extractDestinationFromElement x with
    | none => simp [pushDestination, hfx, ih, List.filterMap_cons]
    | some y => simp [pushDestination, hfx, ih, List.filterMap_cons]

/-- A property preserved by every step of a foldl holds of the result. -/
theorem foldl_preserves {α β : Type} (P : β → Prop) (f : β → α → β)
    (hf : ∀ b a, P b → P (f b a)) :
    ∀ (l : List α) (init : β), P init → P (l.foldl f init) := by
  intro l
  induction l with
  | nil => exact fun init h => h
  | cons x xs ih => exact fun init h => ih _ (hf _ _ h)

/-- A successful findSome? comes from some member of the list. -/
theorem exists_of_findSome?_eq_some {α β : Type} {f : α → Option β} {l : List α} {b : β}
    (h : l.findSome? f = some b) : ∃ a, a ∈ l ∧ f a = some b := by
  induction l with
  | nil => simp [List.findSome?_nil] at h
  | cons x xs ih =>
    rw [List.findSome?_cons] at h
    cases hfx : f x with
    | some y =>
      rw [hfx] at h
      simp only [] at h
      exact ⟨x, List.mem_cons_self x xs, by rw [hfx, h]⟩
    | none =>
      rw [hfx] at h
      simp only [] at h
      obtain ⟨a, ha, hfa⟩ := ih h
      exact ⟨a, List.mem_cons_of_mem _ ha, hfa⟩

/-- findSome? of an everywhere-failing function is none. -/
theorem findSome?_eq_none_of_all {α β : Type} {f : α → Option β} {l : List α}
    (h : ∀ a ∈ l, f a = none) : l.findSome? f = none := by
  induction l with
  | nil => rfl
  | cons x xs ih =>
    rw [List.findSome?_cons, h x (List.mem_cons_self x xs)]
    exact ih fun a ha => h a (List.mem_cons_of_mem _ ha)

/-! ## Shape of matched security-rating strings -/

/-- A digit character has a code point of at most 57. -/
theorem isDig_toNat_le {c : Char} (h : isDig c = true) : c.toNat ≤ 57 := by
  simp only [isDig, Bool.and_eq_true, decide_eq_true_eq] at h
  exact h.2

/-- A match at the head of the list has the matched shape. -/
theorem secMatchAt_shape {cs : List Char} {s : String} (h : secMatchAt cs = some s) :
    isSecToken s = true := by
  unfold secMatchAt at h
  split at h
  · split_ifs at h with h1 h2
    · injection h with h'; subst h'; simpa [isSecToken] using h1
    · injection h with h'; subst h'; simpa [isSecToken] using h2
  · split_ifs at h with h1
    injection h with h'; subst h'; simpa [isSecToken] using h1
  · exact absurd h (by simp)

/-- Every leftmost match of the security pattern has the matched shape. -/
theorem firstSecMatch_shape : ∀ {cs : List Char} {s : String},
    firstSecMatch cs = some s → isSecToken s = true := by
  intro cs
  induction cs with
  | nil => intro s h; simp [firstSecMatch] at h
  | cons c rest ih =>
    intro s h
    rw [firstSecMatch] at h
    cases hm : secMatchAt (c :: rest) with
    | some t =>
      rw [hm] at h
      simp only [] at h
      obtain rfl := Option.some.inj h
      exact secMatchAt_shape hm
    | none =>
      rw [hm] at h
      simp only [] at h
      exact ih h

/-- Strings of the matched shape denote rationals within the interval
the one-digit-dot-one-digit pattern can express. -/
theorem isSecToken_value {s : String} (h : isSecToken s = true) :
    ∃ q : ℚ, secValue? s = some q ∧ -(99/10) ≤ q ∧ q ≤ 99/10 := by
  obtain ⟨cs⟩ := s
  rcases cs with _ | ⟨c0, _ | ⟨c1, _ | ⟨c2, _ | ⟨c3, _ | ⟨c4, rest⟩⟩⟩⟩⟩
  · simp [isSecToken] at h
  · simp [isSecToken] at h
  · simp [isSecToken] at h
  · simp only [isSecToken, Bool.and_eq_true] at h
    obtain ⟨⟨h0, h1⟩, h2⟩ := h
    refine ⟨((c0.toNat - 48 : ℕ) : ℚ) + ((c2.toNat - 48 : ℕ) : ℚ) / 10, ?_, ?_, ?_⟩
    · simp [secValue?, h0, h1, h2]
    · have q0 : (0 : ℚ) ≤ ((c0.toNat - 48 : ℕ) : ℚ) := Nat.cast_nonneg _
      have q2 : (0 : ℚ) ≤ ((c2.toNat - 48 : ℕ) : ℚ) := Nat.cast_nonneg _
      linarith
    · have b0 : (c0.toNat - 48 : ℕ) ≤ 9 := by have := isDig_toNat_le h0; omega
      have b2 : (c2.toNat - 48 : ℕ) ≤ 9 := by have := isDig_toNat_le h2; omega
      have q0 : ((c0.toNat - 48 : ℕ) : ℚ) ≤ 9 := by exact_mod_cast b0
      have q2 : ((c2.toNat - 48 : ℕ) : ℚ) ≤ 9 := by exact_mod_cast b2
      linarith
  · simp only [isSecToken, Bool.and_eq_true] at h
    obtain ⟨⟨⟨h0, h1⟩, h2⟩, h3⟩ := h
    refine ⟨-(((c1.toNat - 48 : ℕ) : ℚ) + ((c3.toNat - 48 : ℕ) : ℚ) / 10), ?_, ?_, ?_⟩
    · simp [secValue?, h0, h1, h2, h3]
    · have b1 : (c1.toNat - 48 : ℕ) ≤ 9 := by have := isDig_toNat_le h1; omega
      have b3 : (c3.toNat - 48 : ℕ) ≤ 9 := by have := isDig_toNat_le h3; omega
      have q1 : ((c1.toNat - 48 : ℕ) : ℚ) ≤ 9 := by exact_mod_cast b1
      have q3 : ((c3.toNat - 48 : ℕ) : ℚ) ≤ 9 := by exact_mod_cast b3
      linarith
    · have q1 : (0 : ℚ) ≤ ((c1.toNat - 48 : ℕ) : ℚ) := Nat.cast_nonneg _
      have q3 : (0 : ℚ) ≤ ((c3.toNat - 48 : ℕ) : ℚ) := Nat.cast_nonneg _
      linarith
  · simp [isSecToken] at h

/-! ## The security field through the three classifier strategies -/

/-- The strategy-1 security field is unset or a matched string. -/
theorem nodeStrategy_shape (doc : Document) (n : String) :
    SecShaped (nodeStrategy doc n).1 := by
  unfold nodeStrategy
  split
  · exact fun s hs => firstSecMatch_shape hs
  · exact fun s hs => by simp at hs

/-- The strategy-2 scan preserves the matched shape of the security field. -/
theorem systemTypeScan_shape (doc : Document) (p : Option String × Option String)
    (hp : SecShaped p.1) : SecShaped (systemTypeScan doc p).1 := by
  unfold systemTypeScan
  refine foldl_preserves (fun acc : Option String × Option String => SecShaped acc.1) _ ?_ _ _ hp
  intro b a hb
  dsimp only
  split
  · exact hb
  · split
    · rename_i s hs
      exact fun s' hs' => by
        obtain rfl := Option.some.inj hs'
        exact firstSecMatch_shape hs
    · exact hb

/-- The strategy-3 fill preserves the matched shape of the security field. -/
theorem headerFill_shape (doc : Document) (p : Option String × Option String)
    (hp : SecShaped p.1) : SecShaped (headerFill doc p).1 := by
  unfold headerFill
  split
  · dsimp only
    split
    · rename_i s hs
      exact fun s' hs' => by
        obtain rfl := Option.some.inj hs'
        exact hp s hs
    · exact fun s hs => firstSecMatch_shape hs
  · exact hp

/-- The guarded strategy-2 block preserves the matched shape. -/
theorem systemTypeGate_shape (doc : Document) (p : Option String × Option String)
    (hp : SecShaped p.1) : SecShaped (systemTypeGate doc p).1 := by
  unfold systemTypeGate
  split
  · exact systemTypeScan_shape doc _ hp
  · exact hp

/-- The guarded strategy-3 block preserves the matched shape. -/
theorem headerFillGate_shape (doc : Document) (p : Option String × Option String)
    (hp : SecShaped p.1) : SecShaped (headerFillGate doc p).1 := by
  unfold headerFillGate
  split
  · exact headerFill_shape doc _ hp
  · exact hp

/-- After all three guarded strategies the security field is unset or a
matched string. -/
theorem classifierPair_shape (doc : Document) (n : String) :
    SecShaped (classifierPair doc n).1 :=
  headerFillGate_shape doc _ (systemTypeGate_shape doc _ (nodeStrategy_shape doc n))

/-! ## Dedup invariant of the per-container scan -/

/-- One hub-loop step preserves pairwise-distinct destination names. -/
theorem addHubIfFound_pairwise {element : DescNode} {l : List Destination} {hub : String}
    (h : l.Pairwise (fun a b => a.name ≠ b.name)) :
    (addHubIfFound element l hub).Pairwise (fun a b => a.name ≠ b.name) := by
  unfold addHubIfFound
  split
  · split
    · rename_i j _
      cases hall : l.all (fun d => d.name != hub) with
      | false => simpa [hall] using h
      | true =>
        simp only [hall, if_true]
        rw [List.pairwise_append]
        refine ⟨h, List.pairwise_singleton _ _, ?_⟩
        intro a ha b hb
        simp only [List.mem_singleton] at hb
        subst hb
        have := List.all_eq_true.mp hall a ha
        simpa using this
    · exact h
  · exact h

/-- One hub-loop step only ever appends to the recorded destinations. -/
theorem addHubIfFound_extends (element : DescNode) (l : List Destination) (hub : String) :
    ∃ t, addHubIfFound element l hub = l ++ t := by
  unfold addHubIfFound
  split
  · split
    · split
      · exact ⟨_, rfl⟩
      · exact ⟨[], by simp⟩
    · exact ⟨[], by simp⟩
  · exact ⟨[], by simp⟩

/-- A foldl whose every step only appends, only appends. -/
theorem foldl_extends {α β : Type} (f : List β → α → List β)
    (hf : ∀ l a, ∃ t, f l a = l ++ t) :
    ∀ (xs : List α) (l : List β), ∃ t, xs.foldl f l = l ++ t := by
  intro xs
  induction xs with
  | nil => exact fun l => ⟨[], (List.append_nil l).symm⟩
  | cons x xs ih =>
    intro l
    obtain ⟨t1, h1⟩ := hf l x
    obtain ⟨t2, h2⟩ := ih (f l x)
    exact ⟨t1 ++ t2, by rw [List.foldl_cons, h2, h1, List.append_assoc]⟩

/-- The hub loop of one descendant only appends. -/
theorem hubLoop_extends (element : DescNode) (l : List Destination) :
    ∃ t, commonHubs.foldl (addHubIfFound element) l = l ++ t :=
  foldl_extends _ (addHubIfFound_extends element) commonHubs l

/-- Scanning more descendants only appends after the scan of the prefix:
every recorded destination keeps its position and its jump count. -/
theorem containerScan_append (d dd : List DescNode) (init : List Destination) :
    ∃ t, containerScan (d ++ dd) init = containerScan d init ++ t := by
  unfold containerScan
  rw [List.foldl_append]
  exact foldl_extends _ (fun l e => hubLoop_extends e l) dd _

/-- A later hit on an already-recorded name changes nothing: the
first-discovered destination wins and keeps its jump count. -/
theorem addHubIfFound_skip {element : DescNode} {l : List Destination} {hub : String}
    (h : ∃ dd ∈ l, dd.name = hub) : addHubIfFound element l hub = l := by
  obtain ⟨dd, hdd, hname⟩ := h
  unfold addHubIfFound
  split
  · split
    · cases hall : l.all (fun d => d.name != hub) with
      | true => exact absurd hname (by simpa using List.all_eq_true.mp hall dd hdd)
      | false => simp [hall]
    · rfl
  · rfl

/-- The strategy-3 panel loop concatenates the per-panel scans of the
visible panels verbatim. -/
theorem foldl_panels_eq_join (ps : List Elem) (init : List Destination) :
    ps.foldl (fun acc panel =>
        if isVisible panel then acc ++ extractAllDestinationsFromContainer panel else acc) init
      = init ++ ((ps.filter isVisible).map extractAllDestinationsFromContainer).flatten := by
  induction ps generalizing init with
  | nil => simp
  | cons p ps ih =>
    rw [List.foldl_cons]
    cases hv : isVisible p with
    | true => simp [hv, ih, List.filter_cons, List.append_assoc]
    | false => simp [hv, ih, List.filter_cons]

/-! ## Congruence of the classifier strategies in their query results -/

/-- Strategy 1 reads only the node-selector query. -/
theorem nodeStrategy_congr {doc doc' : Document}
    (h : doc'.queryAll nodeSelector = doc.queryAll nodeSelector) (n : String) :
    nodeStrategy doc' n = nodeStrategy doc n := by
  unfold nodeStrategy
  rw [h]

/-- Strategy 3 reads only the header-area query. -/
theorem headerFill_congr {doc doc' : Document}
    (h : doc'.queryOne headerAreaSelector = doc.queryOne headerAreaSelector)
    (p : Option String × Option String) : headerFill doc' p = headerFill doc p := by
  unfold headerFill
  rw [h]

/-! ## The mode probe -/

/-- A successful probe returns one of the two mode labels, read off an
element that qualifies and tests active. -/
theorem tabProbe_eq_some {b : Elem} {t : String} (h : tabProbe b = some t) :
    (t = "SHORTEST" ∨ t = "SECURE") ∧ isActiveTabButton b = true ∧
      t = jsToUpper (jsTrim b.textContent) := by
  unfold tabProbe at h
  dsimp only at h
  split_ifs at h with hc
  obtain rfl := Option.some.inj h
  simp only [Bool.and_eq_true, Bool.or_eq_true, beq_iff_eq] at hc
  exact ⟨hc.1, hc.2, rfl⟩

/-- An element that does not qualify as an active mode button fails the
probe. -/
theorem tabProbe_eq_none {b : Elem}
    (h : ¬((jsToUpper (jsTrim b.textContent) = "SHORTEST" ∨
            jsToUpper (jsTrim b.textContent) = "SECURE") ∧ isActiveTabButton b = true)) :
    tabProbe b = none := by
  unfold tabProbe
  dsimp only
  split_ifs with hc
  · exact absurd (by simpa [Bool.and_eq_true, Bool.or_eq_true] using hc) h
  · rfl

/-! ## Claim C1 -/

/-- C1, counterexample: on a document where the name resolves to Egmur
with rating 0.7 and connection C4 but no destination data, getSystemData
returns the documented error yet its header is built WITHOUT the trailing
comma, so the header shape differs from the success shape the claim
asserts. -/
theorem C1_counterexample :
    extractSystemName doc1 = some "Egmur" ∧
    extractDestinations doc1 (detectActiveTab doc1) = [] ∧
    (extractSecurityAndConnection doc1 "Egmur").connectionType = some "C4" ∧
    (getSystemData doc1).error =
      some "Could not extract destination data. Please ensure the tab is expanded." ∧
    (getSystemData doc1).header = "Egmur, 0.7, C4" ∧
    (getSystemData doc1).header ≠ "Egmur, 0.7, C4," := by
  decide

/-- C1, amended: when a name resolves but the Destination Extractor
returns zero destinations, getSystemData returns success false, the
documented error, an empty body, and a header of the form name,
securityRating, connectionTag when a connection tag was detected, else
name, securityRating — in both forms WITHOUT the trailing comma of the
success header. -/
theorem C1_amended_theorem (doc : Document) (n : String)
    (h1 : extractSystemName doc = some n)
    (h2 : extractDestinations doc (detectActiveTab doc) = []) :
    getSystemData doc =
      { success := false,
        error := some "Could not extract destination data. Please ensure the tab is expanded.",
        header :=
          match (extractSecurityAndConnection doc n).connectionType with
          | some t => n ++ ", " ++ (extractSecurityAndConnection doc n).securityRating ++ ", " ++ t
          | none => n ++ ", " ++ (extractSecurityAndConnection doc n).securityRating,
        destinations := "" } := by
  unfold getSystemData
  rw [h1]
  dsimp only
  rw [h2]
  simp

/-- C1, witness: the amended theorem applied to doc1. -/
theorem C1_witness :
    getSystemData doc1 =
      { success := false,
        error := some "Could not extract destination data. Please ensure the tab is expanded.",
        header := "Egmur, 0.7, C4", destinations := "" } :=
  (C1_amended_theorem doc1 "Egmur" (by decide) (by decide)).trans (by decide)

/-! ## Claim C2 -/

/-- C2, counterexample: two hub-summary elements that both name Jita with
different jump counts produce two Jita destinations in the output of the
Destination Extractor: strategies A and B of extractDestinations perform
no deduplication, so the claimed cumulative first-wins dedup invariant
fails. -/
theorem C2_counterexample :
    extractDestinations doc2 (detectActiveTab doc2) =
      [{ name := "Jita", jumps := "14" }, { name := "Jita", jumps := "15" }] ∧
    ¬ (extractDestinations doc2 (detectActiveTab doc2)).Pairwise
        (fun a b => a.name ≠ b.name) := by
  constructor
  · decide
  · decide

/-- C2, amended: the name-deduplication exists only inside the
per-container scan of Strategy C, where it is first-wins.  Within one
container: no two recorded destinations share a name; scanning further
descendants only appends after the scan of the earlier ones, so every
recorded destination keeps its position (discovery order) and its jump
count; and a later hit on an already-recorded name changes nothing, so
the first-discovered occurrence wins with its jump count.  Meanwhile the
hub-summary and accordion strategies record every per-element hit with
no duplicate check, and the panel strategy concatenates the per-panel
scans of the visible panels verbatim, with no cross-panel dedup. -/
theorem C2_amended_theorem (doc : Document) (container : Elem) (element : DescNode)
    (l : List Destination) (hub : String) (d dd : List DescNode)
    (init : List Destination) :
    (extractAllDestinationsFromContainer container).Pairwise
      (fun a b => a.name ≠ b.name) ∧
    (∃ t, containerScan (d ++ dd) init = containerScan d init ++ t) ∧
    ((∃ pd ∈ l, pd.name = hub) → addHubIfFound element l hub = l) ∧
    extractAllDestinationsFromContainer container = containerScan container.descendants [] ∧
    ((doc.queryAll hubSummarySelector).foldl pushDestination [] =
      (doc.queryAll hubSummarySelector).filterMap extractDestinationFromElement) ∧
    ((doc.queryAll accordionSelector).foldl pushDestination [] =
      (doc.queryAll accordionSelector).filterMap extractDestinationFromElement) ∧
    ((doc.queryAll panelSelector).foldl
        (fun acc panel =>
          if isVisible panel then acc ++ extractAllDestinationsFromContainer panel else acc)
        [] =
      (((doc.queryAll panelSelector).filter isVisible).map
        extractAllDestinationsFromContainer).flatten) := by
  refine ⟨?_, containerScan_append d dd init, fun h => addHubIfFound_skip h, rfl,
    (foldl_pushDestination_eq_filterMap _ []).trans (List.nil_append _),
    (foldl_pushDestination_eq_filterMap _ []).trans (List.nil_append _),
    (foldl_panels_eq_join _ []).trans (List.nil_append _)⟩
  unfold extractAllDestinationsFromContainer
  refine foldl_preserves
    (fun l : List Destination => l.Pairwise (fun a b => a.name ≠ b.name)) _ ?_ _ _
    (List.Pairwise.nil)
  intro b a hb
  exact foldl_preserves
    (fun l : List Destination => l.Pairwise (fun a b => a.name ≠ b.name)) _
    (fun l hub hl => addHubIfFound_pairwise hl) _ _ hb

/-- C2, witness: the amended theorem applied to a container showing Jita
twice with jump counts 14 and 15: the recorded list stays the singleton
first hit, and a repeated hit on the recorded name is dropped whole. -/
theorem C2_witness :
    (extractAllDestinationsFromContainer containerW).Pairwise
      (fun a b => a.name ≠ b.name) ∧
    addHubIfFound descW15 [{ name := "Jita", jumps := "14" }] "Jita" =
      [{ name := "Jita", jumps := "14" }] ∧
    extractAllDestinationsFromContainer containerW = [{ name := "Jita", jumps := "14" }] := by
  have h := C2_amended_theorem docEmpty containerW descW15
    [{ name := "Jita", jumps := "14" }] "Jita" [] [] []
  exact ⟨h.1, h.2.2.1 ⟨{ name := "Jita", jumps := "14" }, by simp, rfl⟩, by decide⟩

/-! ## Claim C3 -/

/-- C3, counterexample: on the empty document no name resolves and
getSystemData returns the documented error string with a final period,
but the header is the same text WITHOUT the period, so the header is not
a copy of the error text as claimed. -/
theorem C3_counterexample :
    extractSystemName docEmpty = none ∧
    (getSystemData docEmpty).error = some "No system selected." ∧
    (getSystemData docEmpty).header = "No system selected" ∧
    (getSystemData docEmpty).header ≠ "No system selected." := by
  decide

/-- C3, amended: whenever the Name Locator fails, getSystemData returns
success false, error string with the period, an empty body and the fixed
header text WITHOUT the trailing period (not an exact copy of the error);
the result is this constant record, so the classifier, the mode detector
and the destination extractor cannot influence it. -/
theorem C3_amended_theorem (doc : Document) (h : extractSystemName doc = none) :
    getSystemData doc =
      { success := false, error := some "No system selected.",
        header := "No system selected", destinations := "" } := by
  unfold getSystemData
  rw [h]

/-- C3, witness: the amended theorem applied to the empty document. -/
theorem C3_witness :
    getSystemData docEmpty =
      { success := false, error := some "No system selected.",
        header := "No system selected", destinations := "" } :=
  C3_amended_theorem docEmpty (by decide)

/-! ## Claim C4 -/

/-- C4, counterexample: strategy 1 fills only the security rating on
doc4w (it did not fill both fields), a system-type element carries the
connection class C3, yet the output has no connection tag: the strategy-2
block is gated on BOTH fields being unset, not on the previous strategy
having failed to fill both fields. -/
theorem C4_counterexample :
    ((doc4w.queryAll systemTypeSelector).map
        (fun e => firstConnMatch (jsTrim e.textContent).data)) = [some "C3"] ∧
    nodeStrategy doc4w "Egmur" = (some "0.7", none) ∧
    extractSecurityAndConnection doc4w "Egmur" =
      { securityRating := "0.7", connectionType := none } := by
  decide

/-- C4, amended: strategy 2 is tried only when strategy 1 left BOTH
fields unset; strategy 3 is tried when at least one field is unset and
fills only fields still unset; after the strategies an unset
securityRating defaults to Unknown while an unset connectionTag remains
absent.  The third part records the skip observably: documents agreeing
on the node and header queries produce the same classification whenever
strategy 1 set at least one field, regardless of their system-type
elements. -/
theorem C4_amended_theorem (doc : Document) (n : String) :
    (extractSecurityAndConnection doc n =
      (let p1 := nodeStrategy doc n
       let p2 := if p1 = (none, none) then systemTypeScan doc p1 else p1
       let p3 := if p2.1 = none ∨ p2.2 = none then headerFill doc p2 else p2
       { securityRating := p3.1.getD "Unknown", connectionType := p3.2 })) ∧
    (∀ p : Option String × Option String,
      (p.1 ≠ none → (headerFill doc p).1 = p.1) ∧
      (p.2 ≠ none → (headerFill doc p).2 = p.2)) ∧
    (∀ doc' : Document,
      doc'.queryAll nodeSelector = doc.queryAll nodeSelector →
      doc'.queryOne headerAreaSelector = doc.queryOne headerAreaSelector →
      nodeStrategy doc n ≠ (none, none) →
      extractSecurityAndConnection doc' n = extractSecurityAndConnection doc n) := by
  refine ⟨?_, ?_, ?_⟩
  · unfold extractSecurityAndConnection classifierPair systemTypeGate headerFillGate
    dsimp only
    rcases hp : nodeStrategy doc n with ⟨s, c⟩
    rcases s with _ | s <;> rcases c with _ | c
    · simp only [Option.isNone_none, Bool.and_self, if_true, Prod.mk.injEq, and_self, if_pos]
      rcases hq : systemTypeScan doc (none, none) with ⟨s2, c2⟩
      rcases s2 with _ | s2 <;> rcases c2 with _ | c2 <;> simp
    · simp
    · simp
    · simp
  · intro p
    constructor
    · intro hp1
      unfold headerFill
      split
      · dsimp only
        rcases hp : p.1 with _ | s
        · exact absurd hp hp1
        · simp [hp]
      · rfl
    · intro hp2
      unfold headerFill
      split
      · dsimp only
        rcases hp : p.2 with _ | c
        · exact absurd hp hp2
        · simp [hp]
      · rfl
  · intro doc' hA hO hne
    unfold extractSecurityAndConnection classifierPair systemTypeGate headerFillGate
    rw [nodeStrategy_congr hA]
    have hgate : ((nodeStrategy doc n).1.isNone && (nodeStrategy doc n).2.isNone) = false := by
      rcases hp : nodeStrategy doc n with ⟨s, c⟩
      rcases s with _ | s
      · rcases c with _ | c
        · exact absurd hp hne
        · rfl
      · rfl
    rw [hgate]
    simp only [Bool.false_eq_true, if_false]
    split_ifs
    · rw [headerFill_congr hO]
    · rfl

/-- C4, witness: the amended theorem applied to doc4w, to a pair with
both fields set, and to the system-type-free variant doc4w2. -/
theorem C4_witness :
    extractSecurityAndConnection doc4w "Egmur" =
      { securityRating := "0.7", connectionType := none } ∧
    (headerFill doc4w (some "0.5", some "C2")).1 = some "0.5" ∧
    (headerFill doc4w (some "0.5", some "C2")).2 = some "C2" ∧
    extractSecurityAndConnection doc4w2 "Egmur" =
      extractSecurityAndConnection doc4w "Egmur" := by
  have h := C4_amended_theorem doc4w "Egmur"
  exact ⟨h.1.trans (by decide),
    (h.2.1 (some "0.5", some "C2")).1 (by simp),
    (h.2.1 (some "0.5", some "C2")).2 (by simp),
    h.2.2 doc4w2 (by decide) (by decide) (by decide)⟩

/-! ## Claim C5 -/

/-- C5: on every successful extraction the header is the name, the
security rating and the optional connection tag, comma-separated with a
trailing comma, and the body is the destination pairs name-space-jumps
joined by comma-space with no trailing separator. -/
theorem C5_theorem (doc : Document) (n : String) (ds : List Destination)
    (h1 : extractSystemName doc = some n)
    (h3 : extractDestinations doc (detectActiveTab doc) = ds)
    (h4 : ds ≠ []) :
    getSystemData doc =
      { success := true,
        header :=
          match (extractSecurityAndConnection doc n).connectionType with
          | some t =>
              n ++ ", " ++ (extractSecurityAndConnection doc n).securityRating ++ ", " ++ t ++ ","
          | none => n ++ ", " ++ (extractSecurityAndConnection doc n).securityRating ++ ",",
        destinations := joinCommaSpace (ds.map (fun d => d.name ++ " " ++ d.jumps)),
        error := none } := by
  unfold getSystemData
  rw [h1]
  dsimp only
  rw [h3, if_neg (fun hh => h4 (List.length_eq_zero.mp hh))]

/-- C5, witness: the scenario-1 document yields the bit-exact header and
body of the claim. -/
theorem C5_witness :
    getSystemData doc5 =
      { success := true, header := "Egmur, 0.7, C4,",
        destinations := "Jita 14, Hek 16, Amarr 5, Rens 16, Dodixie 10",
        error := none } :=
  (C5_theorem doc5 "Egmur"
      [{ name := "Jita", jumps := "14" }, { name := "Hek", jumps := "16" },
       { name := "Amarr", jumps := "5" }, { name := "Rens", jumps := "16" },
       { name := "Dodixie", jumps := "10" }]
      (by decide) (by decide) (by decide)).trans (by decide)

/-! ## Claim C6 -/

/-- C6: the Destination Extractor returns the hub-summary results when
there is at least one; the accordion results only when the hub-summary
strategy yields zero; and the visible-panel results only when both
earlier strategies yield zero — so a non-empty Strategy A output makes
the result independent of Strategies B and C. -/
theorem C6_theorem (doc : Document) (activeTab : String) :
    extractDestinations doc activeTab =
      (let sA := (doc.queryAll hubSummarySelector).filterMap extractDestinationFromElement
       let sB := (doc.queryAll accordionSelector).filterMap extractDestinationFromElement
       let sC := (doc.queryAll panelSelector).foldl
           (fun acc panel =>
             if isVisible panel then acc ++ extractAllDestinationsFromContainer panel else acc)
           []
       if sA ≠ [] then sA else if sB ≠ [] then sB else sC) := by
  unfold extractDestinations
  dsimp only
  rw [foldl_pushDestination_eq_filterMap, List.nil_append]
  by_cases hA : (doc.queryAll hubSummarySelector).filterMap extractDestinationFromElement = []
  · rw [hA]
    simp only [List.length_nil, if_pos]
    rw [foldl_pushDestination_eq_filterMap, List.nil_append]
    by_cases hB : (doc.queryAll accordionSelector).filterMap extractDestinationFromElement = []
    · rw [hB]
      simp
    · rw [if_neg (fun hh => hB (List.length_eq_zero.mp hh))]
      simp [hB]
  · rw [if_neg (fun hh => hA (List.length_eq_zero.mp hh)),
      if_neg (fun hh => hA (List.length_eq_zero.mp hh))]
    simp [hA]

/-! ## Claim C7 -/

/-- C7, counterexample: the security regex accepts any digit-dot-digit
text, so a map node reading 9.9 yields securityRating 9.9, which is
neither the Unknown sentinel nor a value in the interval from -1 to 1. -/
theorem C7_counterexample :
    extractSystemName doc7 = some "Foo" ∧
    ¬((extractSecurityAndConnection doc7 "Foo").securityRating = "Unknown" ∨
      ∃ q : ℚ, secValue? (extractSecurityAndConnection doc7 "Foo").securityRating = some q ∧
        -1 ≤ q ∧ q ≤ 1) := by
  constructor
  · decide
  · have hsec : (extractSecurityAndConnection doc7 "Foo").securityRating = "9.9" := by decide
    rw [hsec]
    rintro (h | ⟨q, hq, h1, h2⟩)
    · exact absurd h (by decide)
    · have hv : secValue? "9.9" = some (((9 : ℕ) : ℚ) + ((9 : ℕ) : ℚ) / 10) := rfl
      rw [hv] at hq
      obtain rfl := Option.some.inj hq
      norm_num at h2

/-- C7, amended: for every DOM input the securityRating of the produced
Classification is either the sentinel Unknown or a string of the matched
shape (optional minus sign, digit, dot, digit), whose decimal value
therefore lies in the interval from -9.9 to 9.9 — not the narrower
interval from -1.0 to 1.0 of the claim. -/
theorem C7_amended_theorem (doc : Document) (n : String) :
    (extractSecurityAndConnection doc n).securityRating = "Unknown" ∨
    (isSecToken (extractSecurityAndConnection doc n).securityRating = true ∧
     ∃ q : ℚ, secValue? (extractSecurityAndConnection doc n).securityRating = some q ∧
       -(99/10) ≤ q ∧ q ≤ 99/10) := by
  have hshape := classifierPair_shape doc n
  unfold extractSecurityAndConnection
  dsimp only
  cases hp : (classifierPair doc n).1 with
  | none => left; rfl
  | some s =>
    right
    have htok := hshape s hp
    exact ⟨htok, isSecToken_value htok⟩

/-! ## Claim C8 -/

/-- C8: the Mode Detector is total and closed over the two mode labels:
it always returns SHORTEST or SECURE, and when no queried element both
carries a mode label and tests active it deterministically returns the
default SHORTEST. -/
theorem C8_theorem (doc : Document) :
    (detectActiveTab doc = "SHORTEST" ∨ detectActiveTab doc = "SECURE") ∧
    ((∀ b ∈ doc.queryAll tabSelector,
        ¬((jsToUpper (jsTrim b.textContent) = "SHORTEST" ∨
           jsToUpper (jsTrim b.textContent) = "SECURE") ∧ isActiveTabButton b = true)) →
      detectActiveTab doc = "SHORTEST") := by
  constructor
  · unfold detectActiveTab
    cases hfs : (doc.queryAll tabSelector).findSome? tabProbe with
    | none => left; rfl
    | some t =>
      obtain ⟨a, _, hfa⟩ := exists_of_findSome?_eq_some hfs
      exact (tabProbe_eq_some hfa).1
  · intro h
    unfold detectActiveTab
    rw [findSome?_eq_none_of_all (fun b hb => tabProbe_eq_none (h b hb))]

/-- C8, witness: a document whose only button is a settings button has no
qualifying active element and the detector returns the default. -/
theorem C8_witness :
    detectActiveTab doc8w = "SHORTEST" ∧
    (detectActiveTab doc8w = "SHORTEST" ∨ detectActiveTab doc8w = "SECURE") := by
  have h := C8_theorem doc8w
  exact ⟨h.2 (by decide), h.1⟩

/-! ## Claim C9 -/

/-- C9: a click while the in-flight guard is set leaves the state
unchanged — no outbound call, no alert, nothing queued; the settlement of
a delivery releases the guard whether it succeeded or failed; and after a
settlement a click with a non-blank webhook URL starts a new outbound
call carrying the displayed text. -/
theorem C9_theorem (s : PopupState) (w : String) (ok : Bool) :
    (s.isSendingToDiscord = true → discordClick s w = s) ∧
    (discordSendFinished s ok).isSendingToDiscord = false ∧
    (jsTrim w ≠ "" →
      (discordClick (discordSendFinished s ok) w).sentMessages =
        s.sentMessages ++
          [if s.numberData ≠ "" then s.headerData ++ " " ++ s.numberData else s.headerData]) := by
  refine ⟨?_, ?_, ?_⟩
  · intro h
    unfold discordClick
    rw [h]
    simp
  · unfold discordSendFinished
    cases ok <;> simp
  · intro hw
    have hw' : w ≠ "" := fun h => hw (by rw [h]; rfl)
    unfold discordSendFinished discordClick
    cases ok <;> simp [hw, hw']

/-- C9, witness: with a delivery in flight, a click is a no-op; after the
settlement the guard is clear and a fresh click sends the displayed
text. -/
theorem C9_witness :
    discordClick popupS9 "https://discord.example/webhook" = popupS9 ∧
    (discordSendFinished popupS9 true).isSendingToDiscord = false ∧
    (discordClick (discordSendFinished popupS9 true)
        "https://discord.example/webhook").sentMessages =
      ["Egmur, 0.7, C4, Jita 14"] := by
  have h := C9_theorem popupS9 "https://discord.example/webhook" true
  exact ⟨h.1 rfl, h.2.1, (h.2.2 (by decide)).trans (by decide)⟩

/-! ## Claim C10 -/

/-- C10: a click while the stored webhook URL is empty or whitespace-only
starts no outbound call, raises the operator alert, releases the
in-flight guard, and leaves the displayed extraction result unchanged. -/
theorem C10_theorem (s : PopupState) (w : String)
    (hguard : s.isSendingToDiscord = false) (hempty : jsTrim w = "") :
    (discordClick s w).sentMessages = s.sentMessages ∧
    (discordClick s w).isSendingToDiscord = false ∧
    (discordClick s w).headerData = s.headerData ∧
    (discordClick s w).numberData = s.numberData ∧
    (discordClick s w).alerts = s.alerts ++ ["Please enter a Discord Webhook URL first!"] := by
  unfold discordClick
  rw [hguard]
  simp [hempty]

/-- C10, witness: a whitespace-only webhook URL on an idle popup with a
displayed result. -/
theorem C10_witness :
    (discordClick popupS10 "   ").sentMessages = [] ∧
    (discordClick popupS10 "   ").isSendingToDiscord = false ∧
    (discordClick popupS10 "   ").headerData = "Egmur, 0.7, C4," ∧
    (discordClick popupS10 "   ").numberData = "Jita 14" ∧
    (discordClick popupS10 "   ").alerts = ["Please enter a Discord Webhook URL first!"] := by
  have h := C10_theorem popupS10 "   " rfl (by decide)
  exact ⟨h.1.trans rfl, h.2.1, h.2.2.1.trans rfl, h.2.2.2.1.trans rfl,
    h.2.2.2.2.trans (by decide)⟩

end GrabAndGo
